import Mathlib

/-!
Verification of the analysis core of the Data_Analysis_Election repository.

Part 1 embeds the greedy forward feature-selection loop of
`Analyse_Data/data_processing.py`.  The three Python functions
`greedy_feature_selection_knn`, `greedy_feature_selection_linear` and
`grid_search_feature_selection_poly` share one loop verbatim and differ only
in the cross-validation scorer they call (`perform_knn_cv`,
`perform_linear_regression_cv`, or a `GridSearchCV` over a polynomial
pipeline) — all external sklearn fits.  The loop is therefore embedded once,
parameterized by an opaque score oracle `score : List String → ℚ` standing
for "cross-validated R² of the model fitted on `X[:, indices of the given
feature list]`".  Python's `best_r2 = -np.inf` is modelled by `⊥ : WithBot ℚ`.

Part 2 embeds the per-year extraction and join pipeline of
`Analyse_Data/create_final_data.py`, with database tables as lists of rows
and SQL `WHERE year = ...` clauses as filters.
-/

/-- Score of `selected + [feature]`, i.e. the Python expression
`perform_*_cv(X[:, [features.index(f) for f in selected + [feature]]], y)`. -/
def candidate_score (score : List String → ℚ) (selected : List String)
    (feature : String) : ℚ :=
  score (selected ++ [feature])

/-- The inner `for feature in remaining_features` loop of the greedy
selection functions: it threads the running pair `(best_r2, best_new_feature)`
through the remaining features, replacing it whenever a candidate's
cross-validated score strictly exceeds the running best. -/
def select_best_feature (score : List String → ℚ) (selected : List String) :
    List String → WithBot ℚ → Option String → WithBot ℚ × Option String
  | [], best_r2, best_new_feature => (best_r2, best_new_feature)
  | feature :: rest, best_r2, best_new_feature =>
    if best_r2 < (candidate_score score selected feature : WithBot ℚ) then
      select_best_feature score selected rest
        (candidate_score score selected feature) (some feature)
    else
      select_best_feature score selected rest best_r2 best_new_feature

/-- Full characterisation of the inner loop: either no remaining feature
strictly beats the incoming `best_r2` and the accumulator is returned
untouched, or the list splits around the first-encountered maximum `f`,
which strictly beats everything before it, weakly dominates everything
after it, strictly exceeds the incoming best, and is returned together
with its score. -/
theorem select_best_feature_spec (score : List String → ℚ)
    (selected : List String) :
    ∀ (rem : List String) (best : WithBot ℚ) (bn : Option String),
      (select_best_feature score selected rem best bn = (best, bn) ∧
        ∀ x ∈ rem, (candidate_score score selected x : WithBot ℚ) ≤ best) ∨
      (∃ f l1 l2, rem = l1 ++ f :: l2 ∧
        best < (candidate_score score selected f : WithBot ℚ) ∧
        (∀ x ∈ l1, candidate_score score selected x <
          candidate_score score selected f) ∧
        (∀ x ∈ l2, candidate_score score selected x ≤
          candidate_score score selected f) ∧
        select_best_feature score selected rem best bn =
          ((candidate_score score selected f : WithBot ℚ), some f)) := by
  intro rem
  induction rem with
  | nil =>
    intro best bn
    exact Or.inl ⟨rfl, by simp⟩
  | cons f0 rest ih =>
    intro best bn
    by_cases hlt : best < (candidate_score score selected f0 : WithBot ℚ)
    · rcases ih (candidate_score score selected f0) (some f0) with
        ⟨heq, hle⟩ | ⟨f, l1, l2, hsplit, hbest, hl1, hl2, heq⟩
      · refine Or.inr ⟨f0, [], rest, rfl, hlt, by simp, ?_, ?_⟩
        · intro x hx
          exact_mod_cast hle x hx
        · simp only [select_best_feature, if_pos hlt]
          exact heq
      · refine Or.inr ⟨f, f0 :: l1, l2, by simp [hsplit], ?_, ?_, hl2, ?_⟩
        · exact hlt.trans hbest
        · intro x hx
          rcases List.mem_cons.mp hx with hx0 | hx1
          · subst hx0
            exact_mod_cast hbest
          · exact hl1 x hx1
        · simp only [select_best_feature, if_pos hlt]
          exact heq
    · push_neg at hlt
      rcases ih best bn with
        ⟨heq, hle⟩ | ⟨f, l1, l2, hsplit, hbest, hl1, hl2, heq⟩
      · refine Or.inl ⟨?_, ?_⟩
        · simp only [select_best_feature, if_neg (not_lt.mpr hlt)]
          exact heq
        · intro x hx
          rcases List.mem_cons.mp hx with hx0 | hx1
          · subst hx0
            exact hlt
          · exact hle x hx1
      · refine Or.inr ⟨f, f0 :: l1, l2, by simp [hsplit], hbest, ?_, hl2, ?_⟩
        · intro x hx
          rcases List.mem_cons.mp hx with hx0 | hx1
          · subst hx0
            exact_mod_cast lt_of_le_of_lt hlt hbest
          · exact hl1 x hx1
        · simp only [select_best_feature, if_neg (not_lt.mpr hlt)]
          exact heq

/-- When the inner loop starts with `best_new_feature = None` and ends with
`best_new_feature = Some f`, the feature `f` comes from the remaining list. -/
theorem select_best_feature_some_mem (score : List String → ℚ)
    (selected rem : List String) (best : WithBot ℚ) (f : String)
    (h : (select_best_feature score selected rem best none).2 = some f) :
    f ∈ rem := by
  rcases select_best_feature_spec score selected rem best none with
    ⟨heq, -⟩ | ⟨f', l1, l2, hsplit, -, -, -, heq⟩
  · rw [heq] at h
    simp at h
  · rw [heq] at h
    simp only [Option.some.injEq] at h
    subst h
    rw [hsplit]
    exact List.mem_append_right _ (List.mem_cons_self _ _)

/-- The inner loop never decreases the running best score. -/
theorem select_best_feature_fst_ge (score : List String → ℚ)
    (selected rem : List String) (best : WithBot ℚ) (bn : Option String) :
    best ≤ (select_best_feature score selected rem best bn).1 := by
  rcases select_best_feature_spec score selected rem best bn with
    ⟨heq, -⟩ | ⟨f, l1, l2, -, hbest, -, -, heq⟩
  · rw [heq]
  · rw [heq]
    exact le_of_lt hbest

/-- Python truthiness of the `best_new_feature` variable: `None` and the
empty string are falsy, every other string is truthy. -/
def pyTruthy : Option String → Bool
  | none => false
  | some s => decide (s ≠ "")

/-- Truthy options are `some` of their `getD` default extraction. -/
theorem pyTruthy_eq (o : Option String) (h : pyTruthy o = true) :
    o = some (o.getD "") := by
  cases o <;> simp [pyTruthy] at *

/-- The outer `while remaining_features:` loop shared by
`greedy_feature_selection_knn`, `greedy_feature_selection_linear` and
`grid_search_feature_selection_poly`.  Besides the Python results
(`selected_features`, `best_r2`) it returns two pieces of instrumentation:
the number of executions of the loop body, and the trace of `best_r2`
values recorded each time a feature is appended to `selected_features`.
The guard `if best_new_feature:` is Python truthiness on `best_new_feature`
(`pyTruthy`); in the falsy case the loop breaks, returning the accumulated
`selected_features` and the current `best_r2`. -/
def greedy_feature_selection (score : List String → ℚ)
    (selected remaining : List String) (best_r2 : WithBot ℚ) :
    List String × WithBot ℚ × ℕ × List (WithBot ℚ) :=
  if hrem : remaining = [] then (selected, best_r2, 0, [])
  else
    let scan := select_best_feature score selected remaining best_r2 none
    if ht : pyTruthy scan.2 then
      have hf : scan.2.getD "" ∈ remaining :=
        select_best_feature_some_mem score selected remaining best_r2 _
          (pyTruthy_eq scan.2 ht)
      let result := greedy_feature_selection score (selected ++ [scan.2.getD ""])
        (remaining.erase (scan.2.getD "")) scan.1
      (result.1, result.2.1, result.2.2.1 + 1, scan.1 :: result.2.2.2)
    else (selected, scan.1, 1, [])
termination_by remaining.length
decreasing_by
  have hpos : 0 < remaining.length := List.length_pos.mpr hrem
  rw [List.length_erase_of_mem hf]
  omega

/-- Unfolding equation: an empty remaining list exits the loop at once. -/
theorem greedy_feature_selection_nil (score : List String → ℚ)
    (selected : List String) (best : WithBot ℚ) :
    greedy_feature_selection score selected [] best = (selected, best, 0, []) := by
  rw [greedy_feature_selection]
  rfl

/-- Unfolding equation: with a falsy `best_new_feature` the loop body runs
once and breaks, returning the accumulated selection. -/
theorem greedy_feature_selection_break (score : List String → ℚ)
    (selected remaining : List String) (best : WithBot ℚ)
    (hrem : remaining ≠ [])
    (ht : pyTruthy (select_best_feature score selected remaining best none).2
       = false) :
    greedy_feature_selection score selected remaining best =
      (selected, (select_best_feature score selected remaining best none).1,
        1, []) := by
  rw [greedy_feature_selection, dif_neg hrem]
  simp [ht]

/-- Unfolding equation: with a truthy `best_new_feature = f` the loop appends
`f` to the selection, removes it from the remaining features, and continues
with the updated `best_r2`. -/
theorem greedy_feature_selection_cont (score : List String → ℚ)
    (selected remaining : List String) (best : WithBot ℚ)
    (hrem : remaining ≠ []) (f : String)
    (hscan : (select_best_feature score selected remaining best none).2
       = some f)
    (hf : f ≠ "") :
    greedy_feature_selection score selected remaining best =
      ((greedy_feature_selection score (selected ++ [f]) (remaining.erase f)
          (select_best_feature score selected remaining best none).1).1,
       (greedy_feature_selection score (selected ++ [f]) (remaining.erase f)
          (select_best_feature score selected remaining best none).1).2.1,
       (greedy_feature_selection score (selected ++ [f]) (remaining.erase f)
          (select_best_feature score selected remaining best none).1).2.2.1 + 1,
       (select_best_feature score selected remaining best none).1 ::
       (greedy_feature_selection score (selected ++ [f]) (remaining.erase f)
          (select_best_feature score selected remaining best none).1).2.2.2) := by
  rw [greedy_feature_selection, dif_neg hrem]
  simp [hscan, pyTruthy, hf]

/-- Auxiliary strong induction: the recorded trace of best scores forms a
non-decreasing chain starting from the incoming best score. -/
theorem greedy_trace_chain_aux :
    ∀ (n : ℕ) (score : List String → ℚ) (remaining selected : List String)
      (best : WithBot ℚ), remaining.length ≤ n →
      List.Chain' (· ≤ ·)
        (best :: (greedy_feature_selection score selected remaining best).2.2.2) := by
  intro n
  induction n with
  | zero =>
    intro score remaining selected best hlen
    have h0 : remaining = [] := List.length_eq_zero.mp (Nat.le_zero.mp hlen)
    subst h0
    rw [greedy_feature_selection_nil]
    simp
  | succ n ih =>
    intro score remaining selected best hlen
    by_cases hrem : remaining = []
    · subst hrem
      rw [greedy_feature_selection_nil]
      simp
    · cases ht : pyTruthy (select_best_feature score selected remaining best none).2 with
      | false =>
        rw [greedy_feature_selection_break score selected remaining best hrem ht]
        simp
      | true =>
        have hsome := pyTruthy_eq _ ht
        have hne : (select_best_feature score selected remaining best none).2.getD "" ≠ "" := by
          rcases hopt : (select_best_feature score selected remaining best none).2 with _ | s
          · rw [hopt] at ht
            simp [pyTruthy] at ht
          · rw [hopt] at ht
            simpa [pyTruthy] using ht
        rw [greedy_feature_selection_cont score selected remaining best hrem _ hsome hne]
        rw [List.chain'_cons]
        constructor
        · exact select_best_feature_fst_ge score selected remaining best none
        · have hmem : (select_best_feature score selected remaining best none).2.getD "" ∈ remaining :=
            select_best_feature_some_mem score selected remaining best _ hsome
          have hlen' : (remaining.erase
              ((select_best_feature score selected remaining best none).2.getD "")).length ≤ n := by
            rw [List.length_erase_of_mem hmem]
            have : 0 < remaining.length := List.length_pos.mpr hrem
            omega
          exact ih score _ _ _ hlen'

/-- Auxiliary strong induction: the loop body runs at most once per
remaining feature. -/
theorem greedy_iterations_aux :
    ∀ (n : ℕ) (score : List String → ℚ) (remaining selected : List String)
      (best : WithBot ℚ), remaining.length ≤ n →
      (greedy_feature_selection score selected remaining best).2.2.1 ≤
        remaining.length := by
  intro n
  induction n with
  | zero =>
    intro score remaining selected best hlen
    have h0 : remaining = [] := List.length_eq_zero.mp (Nat.le_zero.mp hlen)
    subst h0
    rw [greedy_feature_selection_nil]
    simp
  | succ n ih =>
    intro score remaining selected best hlen
    by_cases hrem : remaining = []
    · subst hrem
      rw [greedy_feature_selection_nil]
      simp
    · cases ht : pyTruthy (select_best_feature score selected remaining best none).2 with
      | false =>
        rw [greedy_feature_selection_break score selected remaining best hrem ht]
        have : 0 < remaining.length := List.length_pos.mpr hrem
        simpa using this
      | true =>
        have hsome := pyTruthy_eq _ ht
        have hne : (select_best_feature score selected remaining best none).2.getD "" ≠ "" := by
          rcases hopt : (select_best_feature score selected remaining best none).2 with _ | s
          · rw [hopt] at ht
            simp [pyTruthy] at ht
          · rw [hopt] at ht
            simpa [pyTruthy] using ht
        rw [greedy_feature_selection_cont score selected remaining best hrem _ hsome hne]
        have hmem : (select_best_feature score selected remaining best none).2.getD "" ∈ remaining :=
          select_best_feature_some_mem score selected remaining best _ hsome
        have hepos : 0 < remaining.length := List.length_pos.mpr hrem
        have herase : (remaining.erase
            ((select_best_feature score selected remaining best none).2.getD "")).length =
            remaining.length - 1 := List.length_erase_of_mem hmem
        have hlen' : (remaining.erase
            ((select_best_feature score selected remaining best none).2.getD "")).length ≤ n := by
          omega
        have hrec := ih score
          (remaining.erase ((select_best_feature score selected remaining best none).2.getD ""))
          (selected ++ [(select_best_feature score selected remaining best none).2.getD ""])
          ((select_best_feature score selected remaining best none).1) hlen'
        rw [herase] at hrec
        simp only [Prod.fst, Prod.snd]
        omega

/-- C1: for every run of the greedy forward feature selection (the shared
loop of the KNN, linear and polynomial variants, over any score oracle), the
sequence of best cross-validated R² scores recorded as features are selected
— starting from the incoming best, which is `-inf = ⊥` at the top-level call
— is monotonically non-decreasing: the best score after k+1 selected
features is ≥ the best score after k features, because a feature is appended
only when its score improves the running best. -/
theorem greedy_best_scores_monotone (score : List String → ℚ)
    (selected remaining : List String) (best : WithBot ℚ) :
    List.Chain' (· ≤ ·)
      (best :: (greedy_feature_selection score selected remaining best).2.2.2) :=
  greedy_trace_chain_aux remaining.length score remaining selected best le_rfl

/-- C2: every greedy feature-selection run terminates — witnessed by
`greedy_feature_selection` being a total function, whose recursion was
justified by the strict decrease of the remaining list — and the outer
`while` loop body executes at most `|F|` times for a candidate list `F`:
every iteration either moves one feature from the remaining list to the
selected list or breaks out of the loop. -/
theorem greedy_terminates_within_features (score : List String → ℚ)
    (selected remaining : List String) (best : WithBot ℚ) :
    (greedy_feature_selection score selected remaining best).2.2.1 ≤
      remaining.length :=
  greedy_iterations_aux remaining.length score remaining selected best le_rfl

/-- C3: in each iteration of the greedy selector over a nonempty remaining
list, the chosen feature is the first-encountered one attaining the highest
cross-validated R² among the remaining features, its score strictly exceeds
the best score seen so far and becomes the new best, and (when truthy) it is
appended to the selection, which then continues; if no remaining feature
strictly improves on the best score seen so far, no feature is chosen and
selection stops, returning whatever subset (possibly empty) has been
accumulated, without raising an error. -/
theorem greedy_step_chooses_first_argmax (score : List String → ℚ)
    (selected remaining : List String) (best : WithBot ℚ)
    (hrem : remaining ≠ []) :
    (∀ b f, select_best_feature score selected remaining best none = (b, some f) →
      (∃ l1 l2, remaining = l1 ++ f :: l2 ∧
        (∀ x ∈ l1, candidate_score score selected x <
          candidate_score score selected f) ∧
        (∀ x ∈ l2, candidate_score score selected x ≤
          candidate_score score selected f)) ∧
      best < (candidate_score score selected f : WithBot ℚ) ∧
      b = (candidate_score score selected f : WithBot ℚ) ∧
      (f ≠ "" →
        greedy_feature_selection score selected remaining best =
          ((greedy_feature_selection score (selected ++ [f]) (remaining.erase f) b).1,
           (greedy_feature_selection score (selected ++ [f]) (remaining.erase f) b).2.1,
           (greedy_feature_selection score (selected ++ [f]) (remaining.erase f) b).2.2.1 + 1,
           b :: (greedy_feature_selection score (selected ++ [f]) (remaining.erase f) b).2.2.2))) ∧
    (∀ b, select_best_feature score selected remaining best none = (b, none) →
      (∀ x ∈ remaining, (candidate_score score selected x : WithBot ℚ) ≤ best) ∧
      b = best ∧
      greedy_feature_selection score selected remaining best =
        (selected, best, 1, [])) := by
  constructor
  · intro b f h
    rcases select_best_feature_spec score selected remaining best none with
      ⟨heq, -⟩ | ⟨f', l1, l2, hsplit, hbest, hl1, hl2, heq⟩
    · rw [heq] at h
      exact absurd (congrArg Prod.snd h).symm (by simp)
    · rw [heq] at h
      have hb : b = (candidate_score score selected f' : WithBot ℚ) :=
        (congrArg Prod.fst h).symm
      have hff : f = f' := by
        have := (congrArg Prod.snd h).symm
        simpa using this
      subst hff
      refine ⟨⟨l1, l2, hsplit, hl1, hl2⟩, hbest, hb, ?_⟩
      intro hne
      have hscan : (select_best_feature score selected remaining best none).2 = some f := by
        rw [heq]
      have hcont := greedy_feature_selection_cont score selected remaining best hrem f hscan hne
      rw [hcont]
      have hfst : (select_best_feature score selected remaining best none).1 = b := by
        rw [heq, hb]
      rw [hfst]
  · intro b h
    rcases select_best_feature_spec score selected remaining best none with
      ⟨heq, hle⟩ | ⟨f', l1, l2, hsplit, hbest, hl1, hl2, heq⟩
    · rw [heq] at h
      have hb : b = best := (congrArg Prod.fst h).symm
      subst hb
      refine ⟨hle, rfl, ?_⟩
      have ht : pyTruthy (select_best_feature score selected remaining b none).2 = false := by
        rw [heq]
        rfl
      have hbrk := greedy_feature_selection_break score selected remaining b hrem ht
      rw [hbrk, heq]
    · rw [heq] at h
      exact absurd (congrArg Prod.snd h) (by simp)

/-- Concrete witness for C3: with score = list length, one remaining feature
"a" and best = -inf, the inner scan returns ("a", score 1) and the step
characterisation applies. -/
theorem greedy_step_chooses_first_argmax_witness :
    (["a"] : List String) ≠ [] ∧
    ((∃ l1 l2, (["a"] : List String) = l1 ++ "a" :: l2 ∧
        (∀ x ∈ l1, candidate_score (fun l => (l.length : ℚ)) [] x <
          candidate_score (fun l => (l.length : ℚ)) [] "a") ∧
        (∀ x ∈ l2, candidate_score (fun l => (l.length : ℚ)) [] x ≤
          candidate_score (fun l => (l.length : ℚ)) [] "a")) ∧
      (⊥ : WithBot ℚ) <
        (candidate_score (fun l => (l.length : ℚ)) [] "a" : WithBot ℚ) ∧
      ((1 : ℚ) : WithBot ℚ) =
        (candidate_score (fun l => (l.length : ℚ)) [] "a" : WithBot ℚ) ∧
      ("a" ≠ "" →
        greedy_feature_selection (fun l => (l.length : ℚ)) [] ["a"] ⊥ =
          ((greedy_feature_selection (fun l => (l.length : ℚ)) ([] ++ ["a"])
              ((["a"] : List String).erase "a") ((1 : ℚ) : WithBot ℚ)).1,
           (greedy_feature_selection (fun l => (l.length : ℚ)) ([] ++ ["a"])
              ((["a"] : List String).erase "a") ((1 : ℚ) : WithBot ℚ)).2.1,
           (greedy_feature_selection (fun l => (l.length : ℚ)) ([] ++ ["a"])
              ((["a"] : List String).erase "a") ((1 : ℚ) : WithBot ℚ)).2.2.1 + 1,
           ((1 : ℚ) : WithBot ℚ) ::
           (greedy_feature_selection (fun l => (l.length : ℚ)) ([] ++ ["a"])
              ((["a"] : List String).erase "a") ((1 : ℚ) : WithBot ℚ)).2.2.2))) :=
  ⟨by simp,
   (greedy_step_chooses_first_argmax (fun l => (l.length : ℚ)) [] ["a"] ⊥
       (by simp)).1 ((1 : ℚ) : WithBot ℚ) "a" (by rfl)⟩

/-- Row of the `election_results` table as selected by `get_election_data`
(`SELECT state, year, republican, total ... WHERE year = ...`). -/
structure ElectionRow where
  state : String
  year : ℤ
  republican : ℚ
  total : ℚ
deriving DecidableEq

/-- Row of the election extract returned by `get_election_data`. -/
structure ElectionExtract where
  state : String
  year : ℤ
  republican_percent : ℚ
deriving DecidableEq

/-- Row of the `population_data` table as selected by `get_population_data`
(`SELECT name AS state, year, total_population, population_18_24, ...`). -/
structure PopulationRow where
  name : String
  year : ℤ
  total_population : ℚ
  population_18_24 : ℚ
  population_25_44 : ℚ
  population_45_64 : ℚ
  population_65_plus : ℚ
deriving DecidableEq

/-- Row of the population extract returned by `get_population_data`. -/
structure PopulationExtract where
  state : String
  year : ℤ
  total_population : ℚ
  age_18_24_percent : ℚ
  age_25_44_percent : ℚ
  age_45_64_percent : ℚ
  age_65_plus_percent : ℚ
deriving DecidableEq

/-- Row of the `gdp_data` table (`SELECT state, year, total_gpd`); the
extract returned by `get_gdp_data` has the same shape. -/
structure GdpRow where
  state : String
  year : ℤ
  total_gpd : ℚ
deriving DecidableEq

/-- Row of the `unemployment_data` table (`SELECT state, year,
unemployment`); the extract returned by `get_unemployment_data` has the
same shape. -/
structure UnemploymentRow where
  state : String
  year : ℤ
  unemployment : ℚ
deriving DecidableEq

/-- Row of the `education_data` table as selected by `get_education_data`. -/
structure EducationRow where
  state : String
  total_college_finishers_2000 : ℚ
  total_college_finishers_2008 : ℚ
  total_college_finishers_2017 : ℚ
deriving DecidableEq

/-- Row of the education extract returned by `get_education_data`. -/
structure EducationExtract where
  state : String
  college_finishers : ℚ
  year : ℤ
deriving DecidableEq

/-- Row of the `urbanization_data` table as selected by
`get_urbanization_data`. -/
structure UrbanizationRow where
  state : String
  urban_2000 : ℚ
  urban_2010 : ℚ
deriving DecidableEq

/-- Row of the urbanization extract returned by `get_urbanization_data`. -/
structure UrbanizationExtract where
  state : String
  urban_population : ℚ
  year : ℤ
deriving DecidableEq

/-- Row of the final merged per-year table, after the column selection at
the end of `merge_data`. -/
structure FinalRow where
  state : String
  year : ℤ
  gdp_per_capita : ℚ
  unemployment_rate : ℚ
  college_finishers : ℚ
  urban_population : ℚ
  age_18_24_percent : ℚ
  age_25_44_percent : ℚ
  age_45_64_percent : ℚ
  age_65_plus_percent : ℚ
  republican_percent : ℚ
deriving DecidableEq

/-- `get_election_data`: the `WHERE year = ...` clause is a filter on the
table rows, and `republican_percent` is `republican / total * 100`. -/
def get_election_data (tbl : List ElectionRow) (year : ℤ) :
    List ElectionExtract :=
  (tbl.filter (fun r => r.year == year)).map
    (fun r => ⟨r.state, r.year, r.republican / r.total * 100⟩)

/-- The transformation applied to one population row by
`get_population_data`: the four age-bracket percentages are
`population_bracket / total_population * 100`, the `name` column is
relabeled `state`, and the year column is kept. -/
def population_extract_row (r : PopulationRow) (yr : ℤ) : PopulationExtract :=
  ⟨r.name, yr, r.total_population,
   r.population_18_24 / r.total_population * 100,
   r.population_25_44 / r.total_population * 100,
   r.population_45_64 / r.total_population * 100,
   r.population_65_plus / r.total_population * 100⟩

/-- `get_population_data`: `population_year = year - 1 if year == 2020 else
year` selects the queried rows, and for 2020 the year column of the result
is overwritten with 2020. -/
def get_population_data (tbl : List PopulationRow) (year : ℤ) :
    List PopulationExtract :=
  let population_year := if year = 2020 then year - 1 else year
  (tbl.filter (fun r => r.year == population_year)).map
    (fun r => population_extract_row r (if year = 2020 then 2020 else r.year))

/-- `get_gdp_data`: plain `WHERE year = ...` selection. -/
def get_gdp_data (tbl : List GdpRow) (year : ℤ) : List GdpRow :=
  tbl.filter (fun r => r.year == year)

/-- `get_unemployment_data`: plain `WHERE year = ...` selection. -/
def get_unemployment_data (tbl : List UnemploymentRow) (year : ℤ) :
    List UnemploymentRow :=
  tbl.filter (fun r => r.year == year)

/-- `get_education_data`: the whole table is read (no `WHERE` clause), the
census column is chosen by the year thresholds `<= 2005` / `<= 2013` /
otherwise, scaled by 100, and the requested year is attached to each row. -/
def get_education_data (tbl : List EducationRow) (year : ℤ) :
    List EducationExtract :=
  tbl.map (fun r =>
    ⟨r.state,
     (if year ≤ 2005 then r.total_college_finishers_2000
      else if year ≤ 2013 then r.total_college_finishers_2008
      else r.total_college_finishers_2017) * 100,
     year⟩)

/-- `get_urbanization_data`: the whole table is read (no `WHERE` clause),
the census column is chosen by the year threshold `<= 2005`, scaled by 100,
and the requested year is attached to each row. -/
def get_urbanization_data (tbl : List UrbanizationRow) (year : ℤ) :
    List UrbanizationExtract :=
  tbl.map (fun r =>
    ⟨r.state,
     (if year ≤ 2005 then r.urban_2000 else r.urban_2010) * 100,
     year⟩)

/-- Rounding to `d` decimal places, as applied by `DataFrame.round(d)` in
`merge_data`.  The rational model uses Mathlib's `round` (half away from
zero upward); pandas rounds binary floats half-to-even, which differs only
on exact decimal ties that binary floats rarely represent — every claim
here depends only on the rounding granularity, not the tie rule. -/
def roundTo (d : ℕ) (x : ℚ) : ℚ :=
  (round (x * 10 ^ d) : ℚ) / 10 ^ d

/-- `merge_data`: five successive pandas inner merges on `['state', 'year']`
starting from the election extract, followed by the `gdp_per_capita`
derivation, the `unemployment -> unemployment_rate` rename, `dropna()`
(the identity here: the rational model has no NaN), per-column rounding and
the final column selection.  Because every intermediate merged frame keeps
the election row's `(state, year)` key, the five merges flatten to nested
binds filtering each source on that key; like pandas, duplicate keys yield
one output row per combination of matching rows.  The `year` argument is
unused, as in the source. -/
def merge_data (election_df : List ElectionExtract)
    (population_df : List PopulationExtract) (gdp_df : List GdpRow)
    (unemployment_df : List UnemploymentRow)
    (education_df : List EducationExtract)
    (urbanization_df : List UrbanizationExtract) (year : ℤ) : List FinalRow :=
  election_df.flatMap fun re =>
  (population_df.filter fun rp => rp.state == re.state && rp.year == re.year).flatMap fun rp =>
  (gdp_df.filter fun rg => rg.state == re.state && rg.year == re.year).flatMap fun rg =>
  (unemployment_df.filter fun ru => ru.state == re.state && ru.year == re.year).flatMap fun ru =>
  (education_df.filter fun red => red.state == re.state && red.year == re.year).flatMap fun red =>
  (urbanization_df.filter fun rur => rur.state == re.state && rur.year == re.year).map fun rur =>
    { state := re.state
      year := re.year
      gdp_per_capita := roundTo 0 (rg.total_gpd * 1000000 / rp.total_population)
      unemployment_rate := ru.unemployment
      college_finishers := roundTo 1 red.college_finishers
      urban_population := roundTo 1 rur.urban_population
      age_18_24_percent := roundTo 1 rp.age_18_24_percent
      age_25_44_percent := roundTo 1 rp.age_25_44_percent
      age_45_64_percent := roundTo 1 rp.age_45_64_percent
      age_65_plus_percent := roundTo 1 rp.age_65_plus_percent
      republican_percent := roundTo 2 re.republican_percent }

/-- Database access model for `get_combined_data`.  Each component is the
result of executing the corresponding `SELECT` during the processing of a
given year: either the full table contents (the `WHERE` filtering is done by
the `get_*` functions of this file) or a raised query/connection error,
which may depend on when the query runs, hence the year index also for the
two year-less queries. -/
structure Engine where
  election_results : ℤ → Except String (List ElectionRow)
  population_data : ℤ → Except String (List PopulationRow)
  gdp_data : ℤ → Except String (List GdpRow)
  unemployment_data : ℤ → Except String (List UnemploymentRow)
  education_data : ℤ → Except String (List EducationRow)
  urbanization_data : ℤ → Except String (List UrbanizationRow)

/-- Body of the per-year `try:` block of `get_combined_data`: fetch the six
extracts in source order (the first raised error aborts the year), then
merge them only when all six are nonempty; a year with an empty extract
contributes no rows but is not an error. -/
def fetch_year_data (engine : Engine) (year : ℤ) :
    Except String (List FinalRow) := do
  let election_df := get_election_data (← engine.election_results year) year
  let population_df := get_population_data (← engine.population_data year) year
  let gdp_df := get_gdp_data (← engine.gdp_data year) year
  let unemployment_df := get_unemployment_data (← engine.unemployment_data year) year
  let education_df := get_education_data (← engine.education_data year) year
  let urbanization_df := get_urbanization_data (← engine.urbanization_data year) year
  if !election_df.isEmpty && !population_df.isEmpty && !gdp_df.isEmpty &&
      !unemployment_df.isEmpty && !education_df.isEmpty &&
      !urbanization_df.isEmpty then
    pure (merge_data election_df population_df gdp_df unemployment_df
      education_df urbanization_df year)
  else
    pure []

/-- The log line printed by the `except` clause of `get_combined_data`. -/
def year_error_line (year : ℤ) (e : String) : String :=
  "Error processing data for year " ++ toString year ++ ": " ++ e

/-- `get_combined_data`: iterate over the years, catching any query error at
per-year granularity; an errored year appends a log line (the `print` to
standard output) instead of rows, and processing continues with the
remaining years.  Returns the concatenated rows and the log. -/
def get_combined_data (engine : Engine) (years : List ℤ) :
    List FinalRow × List String :=
  years.foldl
    (fun acc year =>
      match fetch_year_data engine year with
      | Except.ok year_df => (acc.1 ++ year_df, acc.2)
      | Except.error e => (acc.1, acc.2 ++ [year_error_line year e]))
    ([], [])

/-- Membership characterisation of `merge_data`: a row is in the merged
output exactly when each of the six extracts contains a matching row on the
election row's `(state, year)` key and the row's fields are the derived,
rounded columns of those six rows. -/
theorem merge_data_mem_iff (election_df : List ElectionExtract)
    (population_df : List PopulationExtract) (gdp_df : List GdpRow)
    (unemployment_df : List UnemploymentRow)
    (education_df : List EducationExtract)
    (urbanization_df : List UrbanizationExtract) (year : ℤ) (r : FinalRow) :
    r ∈ merge_data election_df population_df gdp_df unemployment_df
        education_df urbanization_df year ↔
      ∃ re ∈ election_df, ∃ rp ∈ population_df, ∃ rg ∈ gdp_df,
        ∃ ru ∈ unemployment_df, ∃ red ∈ education_df, ∃ rur ∈ urbanization_df,
        rp.state = re.state ∧ rp.year = re.year ∧
        rg.state = re.state ∧ rg.year = re.year ∧
        ru.state = re.state ∧ ru.year = re.year ∧
        red.state = re.state ∧ red.year = re.year ∧
        rur.state = re.state ∧ rur.year = re.year ∧
        r = { state := re.state
              year := re.year
              gdp_per_capita := roundTo 0 (rg.total_gpd * 1000000 / rp.total_population)
              unemployment_rate := ru.unemployment
              college_finishers := roundTo 1 red.college_finishers
              urban_population := roundTo 1 rur.urban_population
              age_18_24_percent := roundTo 1 rp.age_18_24_percent
              age_25_44_percent := roundTo 1 rp.age_25_44_percent
              age_45_64_percent := roundTo 1 rp.age_45_64_percent
              age_65_plus_percent := roundTo 1 rp.age_65_plus_percent
              republican_percent := roundTo 2 re.republican_percent } := by
  simp only [merge_data, List.mem_flatMap, List.mem_filter, List.mem_map,
    Bool.and_eq_true, beq_iff_eq]
  constructor
  · rintro ⟨re, hre, rp, ⟨⟨hrp, hps, hpy⟩, rg, ⟨⟨hrg, hgs, hgy⟩, ru,
      ⟨⟨hru, hus, huy⟩, red, ⟨⟨hred, hes, hey⟩, rur, ⟨⟨hrur, hurs, hury⟩, hr⟩⟩⟩⟩⟩⟩
    exact ⟨re, hre, rp, hrp, rg, hrg, ru, hru, red, hred, rur, hrur,
      hps, hpy, hgs, hgy, hus, huy, hes, hey, hurs, hury, hr.symm⟩
  · rintro ⟨re, hre, rp, hrp, rg, hrg, ru, hru, red, hred, rur, hrur,
      hps, hpy, hgs, hgy, hus, huy, hes, hey, hurs, hury, hr⟩
    exact ⟨re, hre, rp, ⟨⟨hrp, hps, hpy⟩, rg, ⟨⟨hrg, hgs, hgy⟩, ru,
      ⟨⟨hru, hus, huy⟩, red, ⟨⟨hred, hes, hey⟩, rur, ⟨⟨hrur, hurs, hury⟩, hr.symm⟩⟩⟩⟩⟩⟩

/-- Generalised fold characterisation of `get_combined_data`: each year
independently appends either its merged rows or its error line. -/
theorem get_combined_data_aux (engine : Engine) :
    ∀ (years : List ℤ) (acc : List FinalRow × List String),
      years.foldl
        (fun acc year =>
          match fetch_year_data engine year with
          | Except.ok year_df => (acc.1 ++ year_df, acc.2)
          | Except.error e => (acc.1, acc.2 ++ [year_error_line year e]))
        acc =
      (acc.1 ++ years.flatMap (fun y =>
          match fetch_year_data engine y with
          | Except.ok year_df => year_df
          | Except.error _ => []),
       acc.2 ++ years.flatMap (fun y =>
          match fetch_year_data engine y with
          | Except.ok _ => []
          | Except.error e => [year_error_line y e])) := by
  intro years
  induction years with
  | nil =>
    intro acc
    simp
  | cons y ys ih =>
    intro acc
    rw [List.foldl_cons, ih]
    cases hf : fetch_year_data engine y with
    | ok rows => simp [hf]
    | error e => simp [hf]

/-- Decomposition of a successful per-year fetch: all six queries succeeded
and the produced rows are the merged extracts when all six are nonempty,
nothing otherwise. -/
theorem fetch_year_data_ok (engine : Engine) (y : ℤ) (rows : List FinalRow)
    (h : fetch_year_data engine y = Except.ok rows) :
    ∃ t1 t2 t3 t4 t5 t6,
      engine.election_results y = Except.ok t1 ∧
      engine.population_data y = Except.ok t2 ∧
      engine.gdp_data y = Except.ok t3 ∧
      engine.unemployment_data y = Except.ok t4 ∧
      engine.education_data y = Except.ok t5 ∧
      engine.urbanization_data y = Except.ok t6 ∧
      rows = (if (!(get_election_data t1 y).isEmpty &&
          !(get_population_data t2 y).isEmpty &&
          !(get_gdp_data t3 y).isEmpty &&
          !(get_unemployment_data t4 y).isEmpty &&
          !(get_education_data t5 y).isEmpty &&
          !(get_urbanization_data t6 y).isEmpty) = true
        then merge_data (get_election_data t1 y) (get_population_data t2 y)
          (get_gdp_data t3 y) (get_unemployment_data t4 y)
          (get_education_data t5 y) (get_urbanization_data t6 y) y
        else []) := by
  cases h1 : engine.election_results y with
  | error e => simp [fetch_year_data, h1, Bind.bind, Except.bind] at h
  | ok t1 =>
  cases h2 : engine.population_data y with
  | error e => simp [fetch_year_data, h1, h2, Bind.bind, Except.bind] at h
  | ok t2 =>
  cases h3 : engine.gdp_data y with
  | error e => simp [fetch_year_data, h1, h2, h3, Bind.bind, Except.bind] at h
  | ok t3 =>
  cases h4 : engine.unemployment_data y with
  | error e => simp [fetch_year_data, h1, h2, h3, h4, Bind.bind, Except.bind] at h
  | ok t4 =>
  cases h5 : engine.education_data y with
  | error e => simp [fetch_year_data, h1, h2, h3, h4, h5, Bind.bind, Except.bind] at h
  | ok t5 =>
  cases h6 : engine.urbanization_data y with
  | error e => simp [fetch_year_data, h1, h2, h3, h4, h5, h6, Bind.bind, Except.bind] at h
  | ok t6 =>
    refine ⟨t1, t2, t3, t4, t5, t6, rfl, rfl, rfl, rfl, rfl, rfl, ?_⟩
    simp only [fetch_year_data, h1, h2, h3, h4, h5, h6, Bind.bind, Except.bind,
      pure, Except.pure] at h
    split at h
    · rename_i hguard
      rw [if_pos hguard]
      exact (Except.ok.inj h).symm
    · rename_i hguard
      rw [if_neg hguard]
      exact (Except.ok.inj h).symm

/-- C8: errors are caught at per-year granularity.  The combined rows are
the concatenation over the years of each year's own contribution — a year
whose fetch raises contributes no rows, no exception propagates
(`get_combined_data` is total), and the remaining years are unaffected; the
log printed to standard output gets exactly one line per failing year; and
a year whose six queries succeed but where some required extract is empty
is dropped (it yields `ok []`) without raising. -/
theorem per_year_errors_isolated (engine : Engine) (years : List ℤ) :
    (get_combined_data engine years).1 = years.flatMap (fun y =>
        match fetch_year_data engine y with
        | Except.ok year_df => year_df
        | Except.error _ => []) ∧
    (get_combined_data engine years).2 = years.flatMap (fun y =>
        match fetch_year_data engine y with
        | Except.ok _ => []
        | Except.error e => [year_error_line y e]) ∧
    (∀ y t1 t2 t3 t4 t5 t6,
      engine.election_results y = Except.ok t1 →
      engine.population_data y = Except.ok t2 →
      engine.gdp_data y = Except.ok t3 →
      engine.unemployment_data y = Except.ok t4 →
      engine.education_data y = Except.ok t5 →
      engine.urbanization_data y = Except.ok t6 →
      ((get_election_data t1 y).isEmpty || (get_population_data t2 y).isEmpty ||
       (get_gdp_data t3 y).isEmpty || (get_unemployment_data t4 y).isEmpty ||
       (get_education_data t5 y).isEmpty ||
       (get_urbanization_data t6 y).isEmpty) = true →
      fetch_year_data engine y = Except.ok []) := by
  refine ⟨?_, ?_, ?_⟩
  · rw [get_combined_data, get_combined_data_aux]
    simp
  · rw [get_combined_data, get_combined_data_aux]
    simp
  · intro y t1 t2 t3 t4 t5 t6 h1 h2 h3 h4 h5 h6 hempty
    have hguard : (!(get_election_data t1 y).isEmpty &&
        !(get_population_data t2 y).isEmpty &&
        !(get_gdp_data t3 y).isEmpty &&
        !(get_unemployment_data t4 y).isEmpty &&
        !(get_education_data t5 y).isEmpty &&
        !(get_urbanization_data t6 y).isEmpty) = false := by
      revert hempty
      cases (get_election_data t1 y).isEmpty <;>
        cases (get_population_data t2 y).isEmpty <;>
        cases (get_gdp_data t3 y).isEmpty <;>
        cases (get_unemployment_data t4 y).isEmpty <;>
        cases (get_education_data t5 y).isEmpty <;>
        cases (get_urbanization_data t6 y).isEmpty <;> simp
    simp only [fetch_year_data, h1, h2, h3, h4, h5, h6, Bind.bind, Except.bind]
    rw [hguard]
    simp [pure, Except.pure]

/-- C4: a row appears in the combined output only if it comes from a
processed year whose six queries all succeeded and whose six extracts each
contribute a row matching the output row's `(state, year)` key — the
per-year table is the inner join of the six extracts on `(state, year)`,
so a pair missing from any source is silently absent. -/
theorem combined_row_requires_all_sources (engine : Engine) (years : List ℤ)
    (r : FinalRow) (hr : r ∈ (get_combined_data engine years).1) :
    ∃ y ∈ years, ∃ t1 t2 t3 t4 t5 t6,
      engine.election_results y = Except.ok t1 ∧
      engine.population_data y = Except.ok t2 ∧
      engine.gdp_data y = Except.ok t3 ∧
      engine.unemployment_data y = Except.ok t4 ∧
      engine.education_data y = Except.ok t5 ∧
      engine.urbanization_data y = Except.ok t6 ∧
      (∃ re ∈ get_election_data t1 y, re.state = r.state ∧ re.year = r.year) ∧
      (∃ rp ∈ get_population_data t2 y, rp.state = r.state ∧ rp.year = r.year) ∧
      (∃ rg ∈ get_gdp_data t3 y, rg.state = r.state ∧ rg.year = r.year) ∧
      (∃ ru ∈ get_unemployment_data t4 y, ru.state = r.state ∧ ru.year = r.year) ∧
      (∃ red ∈ get_education_data t5 y, red.state = r.state ∧ red.year = r.year) ∧
      (∃ rur ∈ get_urbanization_data t6 y, rur.state = r.state ∧
        rur.year = r.year) := by
  rw [(per_year_errors_isolated engine years).1] at hr
  rw [List.mem_flatMap] at hr
  obtain ⟨y, hy, hmem⟩ := hr
  refine ⟨y, hy, ?_⟩
  cases hf : fetch_year_data engine y with
  | error e =>
    rw [hf] at hmem
    simp at hmem
  | ok rows =>
    rw [hf] at hmem
    obtain ⟨t1, t2, t3, t4, t5, t6, h1, h2, h3, h4, h5, h6, hrows⟩ :=
      fetch_year_data_ok engine y rows hf
    refine ⟨t1, t2, t3, t4, t5, t6, h1, h2, h3, h4, h5, h6, ?_⟩
    rw [hrows] at hmem
    by_cases hguard : (!(get_election_data t1 y).isEmpty &&
        !(get_population_data t2 y).isEmpty &&
        !(get_gdp_data t3 y).isEmpty &&
        !(get_unemployment_data t4 y).isEmpty &&
        !(get_education_data t5 y).isEmpty &&
        !(get_urbanization_data t6 y).isEmpty) = true
    · rw [if_pos hguard] at hmem
      rw [merge_data_mem_iff] at hmem
      obtain ⟨re, hre, rp, hrp, rg, hrg, ru, hru, red, hred, rur, hrur,
        hps, hpy, hgs, hgy, hus, huy, hes, hey, hurs, hury, hr⟩ := hmem
      subst hr
      exact ⟨⟨re, hre, rfl, rfl⟩, ⟨rp, hrp, hps, hpy⟩, ⟨rg, hrg, hgs, hgy⟩,
        ⟨ru, hru, hus, huy⟩, ⟨red, hred, hes, hey⟩, ⟨rur, hrur, hurs, hury⟩⟩
    · rw [if_neg hguard] at hmem
      simp at hmem

/-- Rounding to d decimals is monotone. -/
theorem roundTo_mono (d : ℕ) {x y : ℚ} (h : x ≤ y) : roundTo d x ≤ roundTo d y := by
  unfold roundTo
  have hr : round (x * 10 ^ d) ≤ round (y * 10 ^ d) := by
    rw [round_eq, round_eq]
    refine Int.floor_mono ?_
    have hp : (0 : ℚ) ≤ 10 ^ d := by positivity
    nlinarith
  have hq : ((round (x * 10 ^ d) : ℤ) : ℚ) ≤ ((round (y * 10 ^ d) : ℤ) : ℚ) := by
    exact_mod_cast hr
  have hpos : (0 : ℚ) < 10 ^ d := by positivity
  exact div_le_div_of_nonneg_right hq hpos.le

/-- Rounding fixes 0. -/
theorem roundTo_zero (d : ℕ) : roundTo d 0 = 0 := by
  unfold roundTo
  simp

/-- Rounding fixes 100. -/
theorem roundTo_hundred (d : ℕ) : roundTo d 100 = 100 := by
  unfold roundTo
  have h : ((100 : ℚ) * 10 ^ d) = ((100 * 10 ^ d : ℤ) : ℚ) := by
    push_cast
    ring
  rw [h, round_intCast]
  push_cast
  have hpos : (0 : ℚ) < 10 ^ d := by positivity
  field_simp

/-- C5: for a year whose election rows are well-formed (0 ≤ republican ≤
total, total > 0 — which the repository's import/verification scripts
enforce by checking republican + democratic + others against total), every
row of the joined per-year output has `republican_percent ∈ [0, 100]`,
where `republican_percent` is computed as `republican / total * 100` and
then rounded to two decimals by `merge_data`. -/
theorem republican_percent_in_range
    (etbl : List ElectionRow) (ptbl : List PopulationRow) (gtbl : List GdpRow)
    (utbl : List UnemploymentRow) (edtbl : List EducationRow)
    (urtbl : List UrbanizationRow) (year : ℤ)
    (hvalid : ∀ e ∈ etbl, 0 ≤ e.republican ∧ e.republican ≤ e.total ∧
      0 < e.total)
    (r : FinalRow)
    (hr : r ∈ merge_data (get_election_data etbl year)
        (get_population_data ptbl year) (get_gdp_data gtbl year)
        (get_unemployment_data utbl year) (get_education_data edtbl year)
        (get_urbanization_data urtbl year) year) :
    0 ≤ r.republican_percent ∧ r.republican_percent ≤ 100 := by
  rw [merge_data_mem_iff] at hr
  obtain ⟨re, hre, rp, hrp, rg, hrg, ru, hru, red, hred, rur, hrur,
    -, -, -, -, -, -, -, -, -, -, hreq⟩ := hr
  have hrp : r.republican_percent = roundTo 2 re.republican_percent := by
    rw [hreq]
  rw [hrp]
  unfold get_election_data at hre
  rw [List.mem_map] at hre
  obtain ⟨e, hef, hee⟩ := hre
  have hmem : e ∈ etbl := (List.mem_filter.mp hef).1
  obtain ⟨hrep, hle, htot⟩ := hvalid e hmem
  have hpct : re.republican_percent = e.republican / e.total * 100 := by
    rw [← hee]
  have h0 : 0 ≤ re.republican_percent := by
    rw [hpct]
    have := div_nonneg hrep htot.le
    linarith
  have h100 : re.republican_percent ≤ 100 := by
    rw [hpct]
    have hdiv : e.republican / e.total ≤ 1 := (div_le_one htot).mpr hle
    linarith
  constructor
  · have := roundTo_mono 2 h0
    rwa [roundTo_zero] at this
  · have := roundTo_mono 2 h100
    rwa [roundTo_hundred] at this

/-- C7: every row of the merged output of the six per-year extracts carries
exactly the derived columns of the spec: republican_percent =
republican/total*100 rounded to 2 decimals, gdp_per_capita =
total_gpd*1e6/total_population rounded to 0 decimals, the four age-bracket
percentages (bracket/total_population*100) rounded to 1 decimal,
urban_population and college_finishers scaled by 100 and rounded to 1
decimal with their source column chosen by the year thresholds (urban:
≤ 2005; college: ≤ 2005 / ≤ 2013 / otherwise), and unemployment_rate the
renamed unemployment column. -/
theorem merged_derived_columns
    (etbl : List ElectionRow) (ptbl : List PopulationRow) (gtbl : List GdpRow)
    (utbl : List UnemploymentRow) (edtbl : List EducationRow)
    (urtbl : List UrbanizationRow) (year : ℤ) (r : FinalRow)
    (hr : r ∈ merge_data (get_election_data etbl year)
        (get_population_data ptbl year) (get_gdp_data gtbl year)
        (get_unemployment_data utbl year) (get_education_data edtbl year)
        (get_urbanization_data urtbl year) year) :
    ∃ e ∈ etbl, ∃ p ∈ ptbl, ∃ g ∈ gtbl, ∃ u ∈ utbl, ∃ ed ∈ edtbl,
      ∃ ur ∈ urtbl,
      r.republican_percent = roundTo 2 (e.republican / e.total * 100) ∧
      r.gdp_per_capita =
        roundTo 0 (g.total_gpd * 1000000 / p.total_population) ∧
      r.age_18_24_percent =
        roundTo 1 (p.population_18_24 / p.total_population * 100) ∧
      r.age_25_44_percent =
        roundTo 1 (p.population_25_44 / p.total_population * 100) ∧
      r.age_45_64_percent =
        roundTo 1 (p.population_45_64 / p.total_population * 100) ∧
      r.age_65_plus_percent =
        roundTo 1 (p.population_65_plus / p.total_population * 100) ∧
      r.urban_population =
        roundTo 1 ((if year ≤ 2005 then ur.urban_2000 else ur.urban_2010) * 100) ∧
      r.college_finishers =
        roundTo 1 ((if year ≤ 2005 then ed.total_college_finishers_2000
          else if year ≤ 2013 then ed.total_college_finishers_2008
          else ed.total_college_finishers_2017) * 100) ∧
      r.unemployment_rate = u.unemployment := by
  rw [merge_data_mem_iff] at hr
  obtain ⟨re, hre, rp, hrp, rg, hrg, ru, hru, red, hred, rur, hrur,
    -, -, -, -, -, -, -, -, -, -, hreq⟩ := hr
  simp only [get_election_data, List.mem_map, List.mem_filter] at hre
  obtain ⟨e, ⟨he, -⟩, hee⟩ := hre
  simp only [get_population_data, List.mem_map, List.mem_filter] at hrp
  obtain ⟨p, ⟨hp, -⟩, hpe⟩ := hrp
  simp only [get_gdp_data, List.mem_filter] at hrg
  obtain ⟨hg, -⟩ := hrg
  simp only [get_unemployment_data, List.mem_filter] at hru
  obtain ⟨hu, -⟩ := hru
  simp only [get_education_data, List.mem_map] at hred
  obtain ⟨ed, hed, hede⟩ := hred
  simp only [get_urbanization_data, List.mem_map] at hrur
  obtain ⟨ur, hur, hure⟩ := hrur
  subst hreq
  refine ⟨e, he, p, hp, rg, hg, ru, hu, ed, hed, ur, hur,
    ?_, ?_, ?_, ?_, ?_, ?_, ?_, ?_, ?_⟩
  · rw [← hee]
  · rw [← hpe]
    rfl
  · rw [← hpe]
    rfl
  · rw [← hpe]
    rfl
  · rw [← hpe]
    rfl
  · rw [← hpe]
    rfl
  · rw [← hure]
  · rw [← hede]
  · rfl

/-- C6: for requested year 2020 the population extract consists of the
table's year-2019 rows with the year column relabeled to 2020 — i.e. it is
exactly the (unrelabeled) 2019 extract with `year` overwritten; for every
other requested year it consists of that same year's rows with the year
column unchanged. -/
theorem population_2020_relabeled (tbl : List PopulationRow) :
    get_population_data tbl 2020 =
      (get_population_data tbl 2019).map (fun r => { r with year := 2020 }) ∧
    ∀ year : ℤ, year ≠ 2020 →
      get_population_data tbl year =
        (tbl.filter (fun r => r.year == year)).map
          (fun r => population_extract_row r r.year) := by
  constructor
  · simp only [get_population_data, List.map_map]
    norm_num
    intro a ha hy
    rfl
  · intro year hne
    simp only [get_population_data, if_neg hne]

/-- C9: the urbanization extract chooses its source column by the year
threshold 2005 — `urban_2000 * 100` for year ≤ 2005, `urban_2010 * 100`
otherwise — and attaches the requested year to every returned row. -/
theorem urbanization_year_threshold (tbl : List UrbanizationRow) (year : ℤ) :
    (year ≤ 2005 →
      get_urbanization_data tbl year =
        tbl.map (fun r => ⟨r.state, r.urban_2000 * 100, year⟩)) ∧
    (2005 < year →
      get_urbanization_data tbl year =
        tbl.map (fun r => ⟨r.state, r.urban_2010 * 100, year⟩)) ∧
    ∀ r2 ∈ get_urbanization_data tbl year, r2.year = year := by
  refine ⟨?_, ?_, ?_⟩
  · intro h
    simp only [get_urbanization_data, if_pos h]
  · intro h
    simp only [get_urbanization_data, if_neg (not_le.mpr h)]
  · intro r2 hr2
    simp only [get_urbanization_data, List.mem_map] at hr2
    obtain ⟨r0, -, hr0⟩ := hr2
    rw [← hr0]

/-- `split_data` of `data_processing.py`: it forwards its arguments to
sklearn's `train_test_split`, with defaults `test_size = 0.2` and
`random_state = 42`.  The library splitter is modelled as an opaque
function of the data, the options, and the state of numpy's global random
generator, which the real implementation consults only when `random_state`
is `None`. -/
def split_data {M V S : Type} (train_test_split : M → V → ℚ → Option ℕ → ℕ → S)
    (rng : ℕ) (X : M) (y : V) (test_size : ℚ := 2 / 10)
    (random_state : Option ℕ := some 42) : S :=
  train_test_split X y test_size random_state rng

/-- C10: the train/test split is deterministic.  `split_data` passes the
fixed `random_state = 42` and `test_size = 0.2` defaults, so under the
library contract that a seeded `train_test_split` does not depend on the
global generator state, two runs (any two generator states) on the same
`X`, `y` produce identical partitions. -/
theorem split_data_deterministic {M V S : Type}
    (train_test_split : M → V → ℚ → Option ℕ → ℕ → S)
    (hseeded : ∀ (X : M) (y : V) (ts : ℚ) (s : ℕ) (g g' : ℕ),
      train_test_split X y ts (some s) g = train_test_split X y ts (some s) g')
    (X : M) (y : V) (g g' : ℕ) :
    split_data train_test_split g X y = split_data train_test_split g' X y :=
  hseeded X y (2 / 10) 42 g g'

/-- Concrete witness for C10: a seeded-deterministic splitter yields equal
splits across two different global generator states. -/
theorem split_data_deterministic_witness :
    (∀ (X y : ℕ) (ts : ℚ) (s : ℕ) (g g' : ℕ),
      (fun (a b : ℕ) (_ : ℚ) (_ : Option ℕ) (_ : ℕ) => (a, b)) X y ts (some s) g =
      (fun (a b : ℕ) (_ : ℚ) (_ : Option ℕ) (_ : ℕ) => (a, b)) X y ts (some s) g') ∧
    split_data (fun (a b : ℕ) (_ : ℚ) (_ : Option ℕ) (_ : ℕ) => (a, b)) 0 1 2 =
      split_data (fun (a b : ℕ) (_ : ℚ) (_ : Option ℕ) (_ : ℕ) => (a, b)) 7 1 2 :=
  ⟨fun _ _ _ _ _ _ => rfl,
   split_data_deterministic (fun (a b : ℕ) (_ : ℚ) (_ : Option ℕ) (_ : ℕ) => (a, b))
     (fun _ _ _ _ _ _ => rfl) 1 2 0 7⟩

/-- One-row election test table: republican 55 of 100 total in year 2000. -/
def test_election_table : List ElectionRow := [⟨"A", 2000, 55, 100⟩]

/-- One-row population test table: 100 inhabitants, 25 per age bracket. -/
def test_population_table : List PopulationRow := [⟨"A", 2000, 100, 25, 25, 25, 25⟩]

/-- One-row GDP test table. -/
def test_gdp_table : List GdpRow := [⟨"A", 2000, 1⟩]

/-- One-row unemployment test table. -/
def test_unemployment_table : List UnemploymentRow := [⟨"A", 2000, 5⟩]

/-- One-row education test table. -/
def test_education_table : List EducationRow := [⟨"A", 1/2, 6/10, 7/10⟩]

/-- One-row urbanization test table. -/
def test_urbanization_table : List UrbanizationRow := [⟨"A", 9/10, 95/100⟩]

/-- Test engine whose queries always succeed with the test tables. -/
def test_engine : Engine :=
  ⟨fun _ => Except.ok test_election_table,
   fun _ => Except.ok test_population_table,
   fun _ => Except.ok test_gdp_table,
   fun _ => Except.ok test_unemployment_table,
   fun _ => Except.ok test_education_table,
   fun _ => Except.ok test_urbanization_table⟩

/-- Test engine whose election query succeeds with an empty table. -/
def test_engine_empty : Engine :=
  { test_engine with election_results := fun _ => Except.ok [] }

/-- The merged row the test tables produce for year 2000. -/
def test_final_row : FinalRow := ⟨"A", 2000, 10000, 5, 50, 90, 25, 25, 25, 25, 55⟩

/-- Evaluation of the whole pipeline on the test engine: year 2000 yields
exactly the expected merged row and an empty log. -/
theorem test_combined_eval :
    get_combined_data test_engine [2000] = ([test_final_row], []) := by
  simp [get_combined_data, fetch_year_data, test_engine, Bind.bind, Except.bind,
    pure, Except.pure, get_election_data, get_population_data, get_gdp_data,
    get_unemployment_data, get_education_data, get_urbanization_data,
    test_election_table, test_population_table, test_gdp_table,
    test_unemployment_table, test_education_table, test_urbanization_table,
    population_extract_row, merge_data, roundTo, test_final_row,
    year_error_line]
  norm_num

/-- Evaluation of `merge_data` on the six test extracts for year 2000. -/
theorem test_merge_eval :
    merge_data (get_election_data test_election_table 2000)
      (get_population_data test_population_table 2000)
      (get_gdp_data test_gdp_table 2000)
      (get_unemployment_data test_unemployment_table 2000)
      (get_education_data test_education_table 2000)
      (get_urbanization_data test_urbanization_table 2000) 2000 =
    [test_final_row] := by
  simp [get_election_data, get_population_data, get_gdp_data,
    get_unemployment_data, get_education_data, get_urbanization_data,
    test_election_table, test_population_table, test_gdp_table,
    test_unemployment_table, test_education_table, test_urbanization_table,
    population_extract_row, merge_data, roundTo, test_final_row]
  norm_num

/-- Concrete witness for C4: the test row is in the combined output and the
six matching source rows exist. -/
theorem combined_row_requires_all_sources_witness :
    test_final_row ∈ (get_combined_data test_engine [2000]).1 ∧
    ∃ y ∈ ([2000] : List ℤ), ∃ t1 t2 t3 t4 t5 t6,
      test_engine.election_results y = Except.ok t1 ∧
      test_engine.population_data y = Except.ok t2 ∧
      test_engine.gdp_data y = Except.ok t3 ∧
      test_engine.unemployment_data y = Except.ok t4 ∧
      test_engine.education_data y = Except.ok t5 ∧
      test_engine.urbanization_data y = Except.ok t6 ∧
      (∃ re ∈ get_election_data t1 y, re.state = test_final_row.state ∧
        re.year = test_final_row.year) ∧
      (∃ rp ∈ get_population_data t2 y, rp.state = test_final_row.state ∧
        rp.year = test_final_row.year) ∧
      (∃ rg ∈ get_gdp_data t3 y, rg.state = test_final_row.state ∧
        rg.year = test_final_row.year) ∧
      (∃ ru ∈ get_unemployment_data t4 y, ru.state = test_final_row.state ∧
        ru.year = test_final_row.year) ∧
      (∃ red ∈ get_education_data t5 y, red.state = test_final_row.state ∧
        red.year = test_final_row.year) ∧
      (∃ rur ∈ get_urbanization_data t6 y, rur.state = test_final_row.state ∧
        rur.year = test_final_row.year) := by
  have hmem : test_final_row ∈ (get_combined_data test_engine [2000]).1 := by
    rw [test_combined_eval]
    simp
  exact ⟨hmem,
    combined_row_requires_all_sources test_engine [2000] test_final_row hmem⟩

/-- Concrete witness for C5: valid test election rows give a merged
republican percentage inside [0, 100]. -/
theorem republican_percent_in_range_witness :
    (∀ e ∈ test_election_table, 0 ≤ e.republican ∧ e.republican ≤ e.total ∧
      0 < e.total) ∧
    test_final_row ∈ merge_data (get_election_data test_election_table 2000)
      (get_population_data test_population_table 2000)
      (get_gdp_data test_gdp_table 2000)
      (get_unemployment_data test_unemployment_table 2000)
      (get_education_data test_education_table 2000)
      (get_urbanization_data test_urbanization_table 2000) 2000 ∧
    0 ≤ test_final_row.republican_percent ∧
      test_final_row.republican_percent ≤ 100 := by
  have hvalid : ∀ e ∈ test_election_table, 0 ≤ e.republican ∧
      e.republican ≤ e.total ∧ 0 < e.total := by
    simp [test_election_table]
    norm_num
  have hmem : test_final_row ∈ merge_data
      (get_election_data test_election_table 2000)
      (get_population_data test_population_table 2000)
      (get_gdp_data test_gdp_table 2000)
      (get_unemployment_data test_unemployment_table 2000)
      (get_education_data test_education_table 2000)
      (get_urbanization_data test_urbanization_table 2000) 2000 := by
    rw [test_merge_eval]
    simp
  exact ⟨hvalid, hmem,
    republican_percent_in_range test_election_table test_population_table
      test_gdp_table test_unemployment_table test_education_table
      test_urbanization_table 2000 hvalid test_final_row hmem⟩

/-- Concrete witness for C7: the test row's derived columns come from the
six raw test rows by the documented formulas. -/
theorem merged_derived_columns_witness :
    test_final_row ∈ merge_data (get_election_data test_election_table 2000)
      (get_population_data test_population_table 2000)
      (get_gdp_data test_gdp_table 2000)
      (get_unemployment_data test_unemployment_table 2000)
      (get_education_data test_education_table 2000)
      (get_urbanization_data test_urbanization_table 2000) 2000 ∧
    (∃ e ∈ test_election_table, ∃ p ∈ test_population_table,
      ∃ g ∈ test_gdp_table, ∃ u ∈ test_unemployment_table,
      ∃ ed ∈ test_education_table, ∃ ur ∈ test_urbanization_table,
      test_final_row.republican_percent =
        roundTo 2 (e.republican / e.total * 100) ∧
      test_final_row.gdp_per_capita =
        roundTo 0 (g.total_gpd * 1000000 / p.total_population) ∧
      test_final_row.age_18_24_percent =
        roundTo 1 (p.population_18_24 / p.total_population * 100) ∧
      test_final_row.age_25_44_percent =
        roundTo 1 (p.population_25_44 / p.total_population * 100) ∧
      test_final_row.age_45_64_percent =
        roundTo 1 (p.population_45_64 / p.total_population * 100) ∧
      test_final_row.age_65_plus_percent =
        roundTo 1 (p.population_65_plus / p.total_population * 100) ∧
      test_final_row.urban_population =
        roundTo 1 ((if (2000 : ℤ) ≤ 2005 then ur.urban_2000 else ur.urban_2010) * 100) ∧
      test_final_row.college_finishers =
        roundTo 1 ((if (2000 : ℤ) ≤ 2005 then ed.total_college_finishers_2000
          else if (2000 : ℤ) ≤ 2013 then ed.total_college_finishers_2008
          else ed.total_college_finishers_2017) * 100) ∧
      test_final_row.unemployment_rate = u.unemployment) := by
  have hmem : test_final_row ∈ merge_data
      (get_election_data test_election_table 2000)
      (get_population_data test_population_table 2000)
      (get_gdp_data test_gdp_table 2000)
      (get_unemployment_data test_unemployment_table 2000)
      (get_education_data test_education_table 2000)
      (get_urbanization_data test_urbanization_table 2000) 2000 := by
    rw [test_merge_eval]
    simp
  exact ⟨hmem,
    merged_derived_columns test_election_table test_population_table
      test_gdp_table test_unemployment_table test_education_table
      test_urbanization_table 2000 test_final_row hmem⟩

/-- Concrete witness for C8: on an engine whose election query succeeds
with an empty table, the year's fetch yields `ok []` — the year is dropped
without raising. -/
theorem per_year_errors_isolated_witness :
    (test_engine_empty.election_results 2000 = Except.ok [] ∧
     test_engine_empty.population_data 2000 = Except.ok test_population_table ∧
     test_engine_empty.gdp_data 2000 = Except.ok test_gdp_table ∧
     test_engine_empty.unemployment_data 2000 = Except.ok test_unemployment_table ∧
     test_engine_empty.education_data 2000 = Except.ok test_education_table ∧
     test_engine_empty.urbanization_data 2000 = Except.ok test_urbanization_table ∧
     ((get_election_data [] 2000).isEmpty ||
      (get_population_data test_population_table 2000).isEmpty ||
      (get_gdp_data test_gdp_table 2000).isEmpty ||
      (get_unemployment_data test_unemployment_table 2000).isEmpty ||
      (get_education_data test_education_table 2000).isEmpty ||
      (get_urbanization_data test_urbanization_table 2000).isEmpty) = true) ∧
    fetch_year_data test_engine_empty 2000 = Except.ok [] := by
  have h7 : ((get_election_data [] 2000).isEmpty ||
      (get_population_data test_population_table 2000).isEmpty ||
      (get_gdp_data test_gdp_table 2000).isEmpty ||
      (get_unemployment_data test_unemployment_table 2000).isEmpty ||
      (get_education_data test_education_table 2000).isEmpty ||
      (get_urbanization_data test_urbanization_table 2000).isEmpty) = true := by
    simp [get_election_data]
  refine ⟨⟨rfl, rfl, rfl, rfl, rfl, rfl, h7⟩, ?_⟩
  exact (per_year_errors_isolated test_engine_empty [2000]).2.2 2000 []
    test_population_table test_gdp_table test_unemployment_table
    test_education_table test_urbanization_table rfl rfl rfl rfl rfl rfl h7

/-- Concrete witness for C6: a non-2020 year takes its own rows with the
year column unchanged. -/
theorem population_2020_relabeled_witness :
    (2016 : ℤ) ≠ 2020 ∧
    get_population_data test_population_table 2016 =
      (test_population_table.filter (fun r => r.year == 2016)).map
        (fun r => population_extract_row r r.year) :=
  ⟨by decide, (population_2020_relabeled test_population_table).2 2016 (by decide)⟩

/-- Concrete witness for C9: for year 2000 ≤ 2005 the urban_2000 column is
used, scaled by 100, with year 2000 attached. -/
theorem urbanization_year_threshold_witness :
    (2000 : ℤ) ≤ 2005 ∧
    get_urbanization_data test_urbanization_table 2000 =
      test_urbanization_table.map
        (fun r => ⟨r.state, r.urban_2000 * 100, 2000⟩) :=
  ⟨by decide, (urbanization_year_threshold test_urbanization_table 2000).1 (by decide)⟩
